import Mathlib

/-!
# Verification of the DeepResearch-Agent critique/revision controller

A shallow embedding of the control logic of `src/main.py`: the per-question
critique/revision loop, its counters (`critique_rounds`, `revision_rounds`),
the append-only artifact writes (`append_critic_thoughts`, the tool-call log
written by `internet_search`), the overwrite-style `write_output`, the
classification of the critic decision by case-insensitive prefix match, the
revision prompt construction, and the REPL input dispatch.

External collaborators (the research agent, the critic agent, the Tavily
search API) are modelled as oracles: an `Env` record of functions giving the
text each invocation returns, plus opaque timestamp/latency observations.
Python strings are modelled as Lean `String` (lists of characters; Python
writes them out UTF-8 encoded, so character-level prefix/equality facts are
byte-level facts about the files).
-/

namespace DeepResearch

/-- The whitespace characters stripped by Python `str.strip()`:
space, tab, newline, carriage return, vertical tab, form feed. -/
def isPyWS (c : Char) : Bool :=
  c == ' ' || c == '\t' || c == '\n' || c == '\r' ||
  c == Char.ofNat 11 || c == Char.ofNat 12

/-- Strip `isPyWS` characters from both ends of a character list. -/
def stripList (l : List Char) : List Char :=
  ((l.dropWhile isPyWS).reverse.dropWhile isPyWS).reverse

/-- Model of Python `str.strip()` with no argument. -/
def pyStrip (s : String) : String := ⟨stripList s.data⟩

/-- Model of Python `str.upper()` (the code only compares ASCII literals). -/
def pyUpper (s : String) : String := ⟨s.data.map Char.toUpper⟩

/-- Model of Python `str.lower()` (the code only compares ASCII literals). -/
def pyLower (s : String) : String := ⟨s.data.map Char.toLower⟩

/-- Model of Python `s.startswith(p)`. -/
def pyStartsWith (s p : String) : Bool := p.data.isPrefixOf s.data

/-- `small` occurs contiguously inside `big` (Python `small in big`). -/
def strContains (big small : String) : Prop := small.data <:+: big.data

instance (big small : String) : Decidable (strContains big small) :=
  inferInstanceAs (Decidable (small.data <:+: big.data))

/-- `MAX_REVISIONS` constant of `src/main.py` (line 270). -/
def MAX_REVISIONS : Nat := 3

/-- `write_output` (main.py lines 88-91): the resulting file content of
`output.txt` after `f.write(text.strip() + "\n")` in mode `"w"` (overwrite). -/
def write_output (text : String) : String := pyStrip text ++ "\n"

/-- `append_critic_thoughts` (main.py lines 81-85): the critic-log file
content after appending the round header and the stripped text in mode
`"a"`.  `ts` is the observed wall-clock timestamp string. -/
def append_critic_thoughts (fileContent text : String) (round_num : Nat)
    (ts : String) : String :=
  fileContent ++ "\n=== CRITIC ROUND " ++ toString round_num ++ " | " ++ ts
    ++ " ===\n" ++ pyStrip text ++ "\n"

/-- Oracles for the external collaborators: the text content the k-th critic
invocation returns, the timestamp observed when logging it, and the text the
k-th research-agent invocation returns. -/
structure Env where
  criticResponse : Nat → String
  criticTimestamp : Nat → String
  researchResponse : Nat → String

/-- Control position inside the `while revision_rounds < MAX_REVISIONS` loop:
at the loop condition, after reading the critic decision, or after `break` /
loop-condition failure. -/
inductive Phase
  | loopHead
  | decided
  | done
deriving DecidableEq

/-- One in-flight question of the controller (main.py lines 270-343):
the two round counters, the current answer text, the persisted `output.txt`
content, the critic-log content, the last critic decision (stripped), the
content of the last message sent to the research agent, the number of
research-agent invocations so far, and the control position. -/
structure St where
  revision_rounds : Nat
  critique_rounds : Nat
  criticInvocations : Nat
  current_text : String
  outputFile : String
  criticLog : String
  decision : String
  lastResearchMessage : String
  researchInvocations : Nat
  phase : Phase

/-- The fixed part of the revision prompt f-string (main.py lines 308-315)
before the interpolated `{decision}`. -/
def revision_prompt_pre : String :=
  "                You are revising an existing answer to satisfy BOTH:\n                1) The critic's requested fixes, and\n                2) The artifact format contracts in the system prompt.\n\n                Apply ONLY the changes requested in the critic feedback below.\n\n                CRITIC FEEDBACK:\n                "

/-- The fixed part of the revision prompt f-string (main.py lines 316-325)
between `{decision}` and `{critique_rounds}`. -/
def revision_prompt_mid : String :=
  "\n\n                Rules:\n                - Prefer minimal edits, but you MAY restructure sections if needed to meet required format.\n                - Ensure output.txt structure is EXACT: Title / Overview / Main Discussion / Key Takeaways / Sources.\n                - notes.md and open_questions.md must remain append-only: only append new timestamped sections or [Resolved] lines.\n                - If adding text, clearly mark it as [Added after critique] within notes.md/open_questions.md entries.\n                - If you must remove content inside output.txt, replace it with: [Removed after critique]\n                - Update the end of notes.md with:\n                Critique rounds: "

/-- The fixed tail of the revision prompt f-string (main.py lines 325-327). -/
def revision_prompt_post : String :=
  "\n                Before finalizing, self-check that all required headers are present and spelled exactly.\n            "

/-- The revision prompt (main.py lines 308-327) as a function of the
interpolated `decision`, `critique_rounds` and `revision_rounds`. -/
def revision_prompt (decision : String) (critique_rounds revision_rounds : Nat) :
    String :=
  revision_prompt_pre ++ decision ++ revision_prompt_mid
    ++ toString critique_rounds ++ ", Revision rounds: "
    ++ toString revision_rounds ++ revision_prompt_post

/-- One micro-step of the critique/revision loop (main.py lines 285-343).
At `loopHead` the loop condition `revision_rounds < MAX_REVISIONS` is tested;
if it holds, `critique_rounds` is incremented, the critic is invoked, its
response is stripped into `decision` and appended to the critic log.  At
`decided` the decision is classified exactly as the code does:
`decision.upper().startswith("ENOUGH")` breaks; otherwise
`not decision.upper().startswith("REVISE")` prints a notice and breaks;
otherwise `revision_rounds` is incremented and the research agent is invoked
with the revision prompt, the answer is replaced and `write_output` runs. -/
def step (env : Env) (s : St) : St :=
  match s.phase with
  | .done => s
  | .loopHead =>
      if s.revision_rounds < MAX_REVISIONS then
        let k := s.critique_rounds + 1
        let d := pyStrip (env.criticResponse k)
        { s with
          critique_rounds := k
          criticInvocations := s.criticInvocations + 1
          decision := d
          criticLog := append_critic_thoughts s.criticLog d k (env.criticTimestamp k)
          phase := .decided }
      else
        { s with phase := .done }
  | .decided =>
      if pyStartsWith (pyUpper s.decision) "ENOUGH" then
        { s with phase := .done }
      else if pyStartsWith (pyUpper s.decision) "REVISE" then
        let rr := s.revision_rounds + 1
        let prompt := revision_prompt s.decision s.critique_rounds rr
        let k := s.researchInvocations + 1
        let t := env.researchResponse k
        { s with
          revision_rounds := rr
          lastResearchMessage := prompt
          researchInvocations := k
          current_text := t
          outputFile := write_output t
          phase := .loopHead }
      else
        { s with phase := .done }

/-- The controller state right after the initial research invocation and the
first `write_output` (main.py lines 270-283), about to enter the loop.
`prevCriticLog` is whatever the critic-log file already held. -/
def initSt (env : Env) (prevCriticLog user_query : String) : St :=
  let t := env.researchResponse 1
  { revision_rounds := 0
    critique_rounds := 0
    criticInvocations := 0
    current_text := t
    outputFile := write_output t
    criticLog := prevCriticLog
    decision := ""
    lastResearchMessage := user_query
    researchInvocations := 1
    phase := .loopHead }

/-- `n` micro-steps of the loop. -/
def steps (env : Env) (s : St) : Nat → St
  | 0 => s
  | n + 1 => step env (steps env s n)

/-- The combined loop invariant: the revision counter is bounded by
`MAX_REVISIONS`, the critique counter equals the number of critic
invocations and is bounded by `MAX_REVISIONS`, the research agent has been
invoked exactly `1 + revision_rounds` times, and the relation between the
two counters at each control position. -/
def Inv (s : St) : Prop :=
  s.revision_rounds ≤ MAX_REVISIONS ∧
  s.critique_rounds ≤ MAX_REVISIONS ∧
  s.critique_rounds = s.criticInvocations ∧
  s.researchInvocations = 1 + s.revision_rounds ∧
  (s.phase = .loopHead → s.critique_rounds = s.revision_rounds) ∧
  (s.phase = .decided →
    s.critique_rounds = s.revision_rounds + 1 ∧ s.revision_rounds < MAX_REVISIONS) ∧
  (s.phase = .done →
    s.revision_rounds ≤ s.critique_rounds ∧
    s.critique_rounds ≤ s.revision_rounds + 1)

/-- A fixed oracle: every critic invocation returns `c`, every research
invocation returns `r`. -/
def qEnv (c r : String) : Env :=
  ⟨fun _ => c, fun _ => "2026-01-01 00:00:00", fun _ => r⟩

/-- The `topic` parameter of `internet_search` (main.py line 31). -/
inductive Topic
  | general
  | news
  | finance

/-- Lowercase hexadecimal digit, as in Python json escapes. -/
def hexDigit (n : Nat) : Char :=
  if n < 10 then Char.ofNat (48 + n) else Char.ofNat (87 + n)

/-- Four lowercase hex digits, as in Python json `\u0000`-style escapes. -/
def hex4 (n : Nat) : String :=
  ⟨[hexDigit (n / 4096 % 16), hexDigit (n / 256 % 16),
    hexDigit (n / 16 % 16), hexDigit (n % 16)]⟩

/-- How Python `json.dumps` (default `ensure_ascii=True`) renders one
character inside a JSON string: `"`, `\`, and the short escapes, `\u`
escapes for other control or non-ASCII characters (surrogate pairs beyond
the BMP), and the character itself otherwise. -/
def jsonEscapeChar (c : Char) : String :=
  if c = '"' then "\\\""
  else if c = '\\' then "\\\\"
  else if c = '\n' then "\\n"
  else if c = '\t' then "\\t"
  else if c = '\r' then "\\r"
  else if c = Char.ofNat 8 then "\\b"
  else if c = Char.ofNat 12 then "\\f"
  else if c.toNat < 32 ∨ c.toNat > 126 then
    if c.toNat < 65536 then "\\u" ++ hex4 c.toNat
    else "\\u" ++ hex4 (55296 + (c.toNat - 65536) / 1024)
      ++ "\\u" ++ hex4 (56320 + (c.toNat - 65536) % 1024)
  else ⟨[c]⟩

/-- The body of a JSON string as rendered by `json.dumps`. -/
def jsonEscape (s : String) : String :=
  ⟨(s.data.map fun c => (jsonEscapeChar c).data).flatten⟩

/-- A JSON string literal as rendered by `json.dumps`. -/
def jsonString (s : String) : String := "\"" ++ jsonEscape s ++ "\""

/-- Characters that `json.dumps` renders as themselves: printable ASCII
other than `"` and `\`. -/
def JsonPlain (s : String) : Prop :=
  ∀ c ∈ s.data, 32 ≤ c.toNat ∧ c.toNat ≤ 126 ∧ c ≠ '"' ∧ c ≠ '\\'

instance (s : String) : Decidable (JsonPlain s) := List.decidableBAll _ _

/-- The line `internet_search` appends to `tool_log.jsonl` (main.py lines
51-63): `json.dumps` of the dict with keys `tool`, `ts`, `query`,
`took_sec`, `n_results`, in insertion order with the default separators.
`took_repr` is the decimal rendering of the float `round(dt, 3)`; the
latency measurement is a wall-clock observation, so its rendered text is
taken as an input. -/
def tool_log_record (ts query took_repr : String) (n_results : Nat) : String :=
  "\x7b\"tool\": \"internet_search\", \"ts\": " ++ jsonString ts
    ++ ", \"query\": " ++ jsonString query
    ++ ", \"took_sec\": " ++ took_repr
    ++ ", \"n_results\": " ++ toString n_results ++ "\x7d"

/-- `internet_search` (main.py lines 28-65), viewed through its effect on
the tool-call log file: the Tavily call itself is external, so the observed
timestamp `ts`, latency rendering `took_repr` and result count `n_results`
are inputs; the function returns the new content of `tool_log.jsonl`.
`max_results`, `topic` and `include_raw_content` are the remaining call
parameters (passed to the search API, line 40-45). -/
def internet_search (toolLog query : String) (max_results : Nat) (topic : Topic)
    (include_raw_content : Bool) (ts took_repr : String) (n_results : Nat) :
    String :=
  toolLog ++ tool_log_record ts query took_repr n_results ++ "\n"

/-- The five-section stub answer of the C7 scenario. -/
def T7 : String :=
  "Title:\nX\nOverview:\nY\nMain Discussion:\nZ\nKey Takeaways:\n- a\nSources:\n- http://example.com"

/-- C7 scenario oracle: the research stub returns `T7`, the critic stub
returns `"ENOUGH"`. -/
def env7 : Env := qEnv "ENOUGH" T7

/-- The controller state of the C7 scenario after the initial invocation
and one critique round (the whole loop, since the critic says ENOUGH). -/
def run7 : St := steps env7 (initSt env7 "" "What is X?") 2

/-- The artifact files the REPL threads between questions: the
overwrite-style `output.txt` and the append-only `critic_thoughts.txt`. -/
structure Artifacts where
  output : String
  criticLog : String

/-- One iteration of the REPL loop (main.py lines 259-351): the raw input
is stripped; `\exit` (case-insensitive) ends the session; empty input
prints a notice and `continue`s, invoking no collaborator and touching no
artifact; otherwise the critique/revision controller runs the question to
completion.  Returns the artifacts afterwards, whether the session
continues, and how many collaborator invocations were made. -/
def replStep (env : Env) (a : Artifacts) (rawInput : String) :
    Artifacts × Bool × Nat :=
  if pyLower (pyStrip rawInput) = "\\exit" then (a, false, 0)
  else if pyStrip rawInput = "" then (a, true, 0)
  else
    let final := steps env (initSt env a.criticLog (pyStrip rawInput))
      (2 * MAX_REVISIONS + 1)
    ({ output := final.outputFile, criticLog := final.criticLog }, true,
      final.researchInvocations + final.criticInvocations)

theorem inv_initSt (env : Env) (prevCriticLog user_query : String) :
    Inv (initSt env prevCriticLog user_query) := by
  refine ⟨?_, ?_, ?_, ?_, ?_, ?_, ?_⟩ <;> simp [initSt, Inv, MAX_REVISIONS]

theorem inv_step (env : Env) (s : St) (h : Inv s) : Inv (step env s) := by
  obtain ⟨h1, h2, h3, h4, h5, h6, h7⟩ := h
  unfold step
  cases hp : s.phase with
  | done =>
      exact ⟨h1, h2, h3, h4, h5, h6, h7⟩
  | loopHead =>
      have hcr := h5 hp
      by_cases hlt : s.revision_rounds < MAX_REVISIONS
      · simp only [if_pos hlt]
        refine ⟨?_, ?_, ?_, ?_, ?_, ?_, ?_⟩ <;> simp [MAX_REVISIONS] at * <;> omega
      · simp only [if_neg hlt]
        refine ⟨?_, ?_, ?_, ?_, ?_, ?_, ?_⟩ <;> simp [MAX_REVISIONS] at * <;> omega
  | decided =>
      have hd := h6 hp
      by_cases he : pyStartsWith (pyUpper s.decision) "ENOUGH" = true
      · simp only [if_pos he]
        refine ⟨?_, ?_, ?_, ?_, ?_, ?_, ?_⟩ <;> simp [MAX_REVISIONS] at * <;> omega
      · simp only [if_neg he]
        by_cases hr : pyStartsWith (pyUpper s.decision) "REVISE" = true
        · simp only [if_pos hr]
          refine ⟨?_, ?_, ?_, ?_, ?_, ?_, ?_⟩ <;> simp [MAX_REVISIONS] at * <;> omega
        · simp only [if_neg hr]
          refine ⟨?_, ?_, ?_, ?_, ?_, ?_, ?_⟩ <;> simp [MAX_REVISIONS] at * <;> omega

theorem inv_steps (env : Env) (s : St) (h : Inv s) (n : Nat) :
    Inv (steps env s n) := by
  induction n with
  | zero => exact h
  | succ n ih => exact inv_step env _ ih

theorem steps_succ_front (env : Env) (s : St) (n : Nat) :
    steps env s (n + 1) = steps env (step env s) n := by
  induction n with
  | zero => rfl
  | succ n ih =>
      simp only [steps] at ih ⊢
      rw [← ih]

theorem step_done (env : Env) (s : St) (h : s.phase = .done) :
    step env s = s := by
  unfold step
  rw [h]

theorem steps_done (env : Env) (s : St) (h : s.phase = .done) (n : Nat) :
    steps env s n = s := by
  induction n with
  | zero => rfl
  | succ n ih => simp [steps, ih, step_done env s h]

theorem step_loopHead_lt (env : Env) (s : St) (hp : s.phase = .loopHead)
    (hlt : s.revision_rounds < MAX_REVISIONS) :
    step env s =
      { s with
        critique_rounds := s.critique_rounds + 1
        criticInvocations := s.criticInvocations + 1
        decision := pyStrip (env.criticResponse (s.critique_rounds + 1))
        criticLog := append_critic_thoughts s.criticLog
          (pyStrip (env.criticResponse (s.critique_rounds + 1)))
          (s.critique_rounds + 1) (env.criticTimestamp (s.critique_rounds + 1))
        phase := .decided } := by
  unfold step
  rw [hp, if_pos hlt]

theorem step_loopHead_ge (env : Env) (s : St) (hp : s.phase = .loopHead)
    (hge : ¬ s.revision_rounds < MAX_REVISIONS) :
    step env s = { s with phase := .done } := by
  unfold step
  rw [hp, if_neg hge]

theorem step_decided_enough (env : Env) (s : St) (hp : s.phase = .decided)
    (he : pyStartsWith (pyUpper s.decision) "ENOUGH" = true) :
    step env s = { s with phase := .done } := by
  unfold step
  rw [hp, if_pos he]

theorem step_decided_unexpected (env : Env) (s : St) (hp : s.phase = .decided)
    (he : pyStartsWith (pyUpper s.decision) "ENOUGH" = false)
    (hr : pyStartsWith (pyUpper s.decision) "REVISE" = false) :
    step env s = { s with phase := .done } := by
  unfold step
  rw [hp,
    if_neg (show ¬ pyStartsWith (pyUpper s.decision) "ENOUGH" = true by simp [he]),
    if_neg (show ¬ pyStartsWith (pyUpper s.decision) "REVISE" = true by simp [hr])]

theorem step_decided_revise (env : Env) (s : St) (hp : s.phase = .decided)
    (he : pyStartsWith (pyUpper s.decision) "ENOUGH" = false)
    (hr : pyStartsWith (pyUpper s.decision) "REVISE" = true) :
    step env s =
      { s with
        revision_rounds := s.revision_rounds + 1
        lastResearchMessage :=
          revision_prompt s.decision s.critique_rounds (s.revision_rounds + 1)
        researchInvocations := s.researchInvocations + 1
        current_text := env.researchResponse (s.researchInvocations + 1)
        outputFile := write_output (env.researchResponse (s.researchInvocations + 1))
        phase := .loopHead } := by
  unfold step
  rw [hp,
    if_neg (show ¬ pyStartsWith (pyUpper s.decision) "ENOUGH" = true by simp [he]),
    if_pos hr]

/-- From the loop condition with `k` revision rounds still available, the
loop reaches `done` within `2 * k + 1` micro-steps. -/
theorem loop_done_of_fuel (k : Nat) :
    ∀ (env : Env) (s : St), Inv s → s.phase = .loopHead →
      MAX_REVISIONS - s.revision_rounds ≤ k →
      (steps env s (2 * k + 1)).phase = .done := by
  induction k with
  | zero =>
      intro env s hInv hp hk
      have hge : ¬ s.revision_rounds < MAX_REVISIONS := by omega
      show (steps env s 1).phase = .done
      simp [steps, step_loopHead_ge env s hp hge]
  | succ k ih =>
      intro env s hInv hp hk
      have hpeel : steps env s (2 * (k + 1) + 1)
          = steps env (step env (step env s)) (2 * k + 1) := by
        have e1 : 2 * (k + 1) + 1 = (2 * k + 1) + 1 + 1 := by ring
        rw [e1, steps_succ_front, steps_succ_front]
      by_cases hlt : s.revision_rounds < MAX_REVISIONS
      · have h1 := step_loopHead_lt env s hp hlt
        have hp1 : (step env s).phase = .decided := by rw [h1]
        have hrr1 : (step env s).revision_rounds = s.revision_rounds := by rw [h1]
        by_cases he : pyStartsWith (pyUpper (step env s).decision) "ENOUGH" = true
        · have h2 := step_decided_enough env (step env s) hp1 he
          rw [hpeel, h2, steps_done env _ rfl]
        · by_cases hr : pyStartsWith (pyUpper (step env s).decision) "REVISE" = true
          · have h2 := step_decided_revise env (step env s) hp1
              (by simpa using he) hr
            rw [hpeel]
            refine ih env _ (inv_step env _ (inv_step env _ hInv)) (by rw [h2]) ?_
            have hrr2 : (step env (step env s)).revision_rounds
                = s.revision_rounds + 1 := by
              simp only [h2, hrr1]
            rw [hrr2]
            omega
          · have h2 := step_decided_unexpected env (step env s) hp1
              (by simpa using he) (by simpa using hr)
            rw [hpeel, h2, steps_done env _ rfl]
      · have h1 := step_loopHead_ge env s hp hlt
        have e1 : 2 * (k + 1) + 1 = (2 * (k + 1)) + 1 := rfl
        rw [e1, steps_succ_front, h1, steps_done env _ rfl]

/-- Any single micro-step increments `revision_rounds` at most once. -/
theorem step_revision_le (env : Env) (s : St) :
    (step env s).revision_rounds ≤ s.revision_rounds + 1 := by
  by_cases hp1 : s.phase = .loopHead
  · by_cases hlt : s.revision_rounds < MAX_REVISIONS
    · rw [step_loopHead_lt env s hp1 hlt]
      exact Nat.le_succ _
    · rw [step_loopHead_ge env s hp1 hlt]
      exact Nat.le_succ _
  · by_cases hp2 : s.phase = .decided
    · by_cases he : pyStartsWith (pyUpper s.decision) "ENOUGH" = true
      · rw [step_decided_enough env s hp2 he]
        exact Nat.le_succ _
      · by_cases hr : pyStartsWith (pyUpper s.decision) "REVISE" = true
        · rw [step_decided_revise env s hp2 (by simpa using he) hr]
        · rw [step_decided_unexpected env s hp2 (by simpa using he)
            (by simpa using hr)]
          exact Nat.le_succ _
    · have hp3 : s.phase = .done := by
        cases h : s.phase <;> simp_all
      rw [step_done env s hp3]
      exact Nat.le_succ _

/-- The micro-step leaving the loop head (the critic invocation, or the
failed loop test) never changes `revision_rounds`. -/
theorem step_loopHead_rr (env : Env) (s : St) (hp : s.phase = .loopHead) :
    (step env s).revision_rounds = s.revision_rounds := by
  by_cases hlt : s.revision_rounds < MAX_REVISIONS
  · rw [step_loopHead_lt env s hp hlt]
  · rw [step_loopHead_ge env s hp hlt]

/-- C1: for every question and at every point of the critique/revision loop,
`revision_rounds` never exceeds `MAX_REVISIONS = 3`; one full loop
iteration (critic invocation plus decision handling, two micro-steps from
the loop head) increments `revision_rounds` at most once; and when
`revision_rounds < MAX_REVISIONS` fails at the loop head, the loop body
does not run — the controller only marks the loop finished, changing
nothing else. -/
theorem C1_revision_rounds_bounded :
    (∀ (env : Env) (log q : String) (n : Nat),
        (steps env (initSt env log q) n).revision_rounds ≤ MAX_REVISIONS) ∧
    (∀ (env : Env) (s : St), s.phase = .loopHead →
        (steps env s 2).revision_rounds ≤ s.revision_rounds + 1) ∧
    (∀ (env : Env) (s : St), s.phase = .loopHead →
        ¬ s.revision_rounds < MAX_REVISIONS →
        step env s = { s with phase := .done }) := by
  refine ⟨?_, ?_, ?_⟩
  · intro env log q n
    exact (inv_steps env _ (inv_initSt env log q) n).1
  · intro env s hp
    have e2 : steps env s 2 = step env (step env s) := rfl
    rw [e2]
    have ha := step_loopHead_rr env s hp
    have hb := step_revision_le env (step env s)
    omega
  · exact step_loopHead_ge

theorem C1_revision_rounds_bounded_witness :
    step ⟨fun _ => "ENOUGH", fun _ => "ts", fun _ => "t"⟩
        { revision_rounds := 3, critique_rounds := 3, criticInvocations := 3,
          current_text := "t", outputFile := "t\n", criticLog := "",
          decision := "d", lastResearchMessage := "m",
          researchInvocations := 4, phase := .loopHead }
      = { revision_rounds := 3, critique_rounds := 3, criticInvocations := 3,
          current_text := "t", outputFile := "t\n", criticLog := "",
          decision := "d", lastResearchMessage := "m",
          researchInvocations := 4, phase := .done } :=
  C1_revision_rounds_bounded.2.2 _ _ rfl (by decide)

/-- C10: throughout and after the loop,
`revision_rounds ≤ critique_rounds ≤ revision_rounds + 1`, and
`critique_rounds` always equals the number of critic invocations (it is
incremented exactly once alongside each critic invocation, before the
decision is read; `revision_rounds` only afterwards, on a revise decision). -/
theorem C10_counter_drift (env : Env) (log q : String) (n : Nat) :
    (steps env (initSt env log q) n).revision_rounds
        ≤ (steps env (initSt env log q) n).critique_rounds ∧
    (steps env (initSt env log q) n).critique_rounds
        ≤ (steps env (initSt env log q) n).revision_rounds + 1 ∧
    (steps env (initSt env log q) n).critique_rounds
        = (steps env (initSt env log q) n).criticInvocations := by
  obtain ⟨h1, h2, h3, h4, h5, h6, h7⟩ := inv_steps env _ (inv_initSt env log q) n
  cases hp : (steps env (initSt env log q) n).phase
  · have := h5 hp
    exact ⟨by omega, by omega, h3⟩
  · have := h6 hp
    exact ⟨by omega, by omega, h3⟩
  · have := h7 hp
    exact ⟨by omega, by omega, h3⟩

/-- C5: the controller terminates within a bounded number of collaborator
invocations: the loop is finished after `2 * MAX_REVISIONS + 1` micro-steps,
and at every point there have been at most `1 + MAX_REVISIONS = 4`
research-agent invocations and at most `MAX_REVISIONS = 3` critic
invocations for the question. -/
theorem C5_bounded_invocations (env : Env) (log q : String) :
    (steps env (initSt env log q) (2 * MAX_REVISIONS + 1)).phase = .done ∧
    ∀ (n : Nat),
      (steps env (initSt env log q) n).researchInvocations ≤ 1 + MAX_REVISIONS ∧
      (steps env (initSt env log q) n).criticInvocations ≤ MAX_REVISIONS := by
  constructor
  · exact loop_done_of_fuel MAX_REVISIONS env _ (inv_initSt env log q) rfl
      (by simp [initSt])
  · intro n
    obtain ⟨h1, h2, h3, h4, h5, h6, h7⟩ := inv_steps env _ (inv_initSt env log q) n
    omega

theorem pyStartsWith_iff (s p : String) :
    pyStartsWith s p = true ↔ p.data <+: s.data := by
  simp [pyStartsWith, List.isPrefixOf_iff_prefix]

/-- A string starting with `"REVISE:"` also starts with `"REVISE"` and
cannot start with `"ENOUGH"`. -/
theorem revise_colon_facts (d : String)
    (h : pyStartsWith d "REVISE:" = true) :
    pyStartsWith d "REVISE" = true ∧ pyStartsWith d "ENOUGH" = false := by
  rw [pyStartsWith_iff] at h
  obtain ⟨t, ht⟩ := h
  constructor
  · rw [pyStartsWith_iff]
    exact ⟨':' :: t, by rw [← ht]; rfl⟩
  · have hne : ¬ ("ENOUGH".data <+: d.data) := by
      intro hE
      obtain ⟨u, hu⟩ := hE
      rw [← ht] at hu
      have hu' : ('E' : Char) :: ("NOUGH".data ++ u)
          = ('R' : Char) :: ("EVISE:".data ++ t) := hu
      injection hu' with h1 _
      exact absurd h1 (by decide)
    rw [← pyStartsWith_iff] at hne
    simpa using hne

theorem infix_extend_right {a b : List Char} (c : List Char)
    (h : a <:+: b) : a <:+: b ++ c :=
  h.trans ( List.prefix_append b c).isInfix

theorem infix_extend_left {a b : List Char} (c : List Char)
    (h : a <:+: b) : a <:+: c ++ b :=
  h.trans ( List.suffix_append c b).isInfix

/-- Anything contained in the critic decision is contained in the revision
prompt, since the prompt interpolates the decision verbatim. -/
theorem strContains_revision_prompt (d fix : String) (cr rr : Nat)
    (h : strContains d fix) : strContains (revision_prompt d cr rr) fix := by
  unfold strContains at *
  unfold revision_prompt
  simp only [String.data_append]
  exact infix_extend_right _ (infix_extend_right _ (infix_extend_right _
    (infix_extend_right _ (infix_extend_right _ (infix_extend_left _ h)))))

/-- C4: a critic response of exactly `"ENOUGH"` ends the loop at once:
the loop is done, `revision_rounds` is unchanged and the research agent is
not invoked again. -/
theorem C4_enough_terminates (env : Env) (s : St)
    (hp : s.phase = .loopHead)
    (hlt : s.revision_rounds < MAX_REVISIONS)
    (hresp : env.criticResponse (s.critique_rounds + 1) = "ENOUGH") :
    (steps env s 2).phase = .done ∧
    (steps env s 2).revision_rounds = s.revision_rounds ∧
    (steps env s 2).researchInvocations = s.researchInvocations := by
  have h1 := step_loopHead_lt env s hp hlt
  have hp1 : (step env s).phase = .decided := by rw [h1]
  have hd : (step env s).decision = "ENOUGH" := by rw [h1, hresp]; rfl
  have he : pyStartsWith (pyUpper (step env s).decision) "ENOUGH" = true := by
    rw [hd]; rfl
  have h2 := step_decided_enough env (step env s) hp1 he
  have e2 : steps env s 2 = step env (step env s) := rfl
  rw [e2, h2]
  refine ⟨rfl, ?_, ?_⟩ <;> rw [h1]

theorem C4_enough_terminates_witness :
    (steps (qEnv "ENOUGH" "text") (initSt (qEnv "ENOUGH" "text") "" "q") 2).phase
        = .done ∧
    (steps (qEnv "ENOUGH" "text") (initSt (qEnv "ENOUGH" "text") "" "q") 2).revision_rounds
        = (initSt (qEnv "ENOUGH" "text") "" "q").revision_rounds ∧
    (steps (qEnv "ENOUGH" "text") (initSt (qEnv "ENOUGH" "text") "" "q") 2).researchInvocations
        = (initSt (qEnv "ENOUGH" "text") "" "q").researchInvocations :=
  C4_enough_terminates _ _ rfl (by decide) rfl

/-- C3: a critic response whose stripped form begins case-insensitively with
`"REVISE:"` drives one full loop iteration: `revision_rounds` goes up by
exactly one, the research agent is invoked exactly once more, and the
message it receives contains every fragment of the critic decision — in
particular every listed fix line. -/
theorem C3_revise_round (env : Env) (s : St) (fix : String)
    (hp : s.phase = .loopHead)
    (hlt : s.revision_rounds < MAX_REVISIONS)
    (hresp : pyStartsWith
      (pyUpper (pyStrip (env.criticResponse (s.critique_rounds + 1)))) "REVISE:" = true)
    (hfix : strContains (pyStrip (env.criticResponse (s.critique_rounds + 1))) fix) :
    (steps env s 2).revision_rounds = s.revision_rounds + 1 ∧
    (steps env s 2).researchInvocations = s.researchInvocations + 1 ∧
    strContains (steps env s 2).lastResearchMessage fix := by
  have h1 := step_loopHead_lt env s hp hlt
  have hp1 : (step env s).phase = .decided := by rw [h1]
  have hd : (step env s).decision
      = pyStrip (env.criticResponse (s.critique_rounds + 1)) := by rw [h1]
  obtain ⟨hrT, heF⟩ := revise_colon_facts _ hresp
  have h2 := step_decided_revise env (step env s) hp1
    (by rw [hd]; exact heF) (by rw [hd]; exact hrT)
  have e2 : steps env s 2 = step env (step env s) := rfl
  rw [e2, h2]
  refine ⟨?_, ?_, ?_⟩
  · rw [h1]
  · rw [h1]
  · show strContains (revision_prompt (step env s).decision
      (step env s).critique_rounds ((step env s).revision_rounds + 1)) fix
    rw [hd]
    exact strContains_revision_prompt _ _ _ _ hfix

theorem C3_revise_round_witness :
    (steps (qEnv "REVISE:\n- Add a Sources section." "text")
        (initSt (qEnv "REVISE:\n- Add a Sources section." "text") "" "q") 2).revision_rounds
      = (initSt (qEnv "REVISE:\n- Add a Sources section." "text") "" "q").revision_rounds + 1 ∧
    (steps (qEnv "REVISE:\n- Add a Sources section." "text")
        (initSt (qEnv "REVISE:\n- Add a Sources section." "text") "" "q") 2).researchInvocations
      = (initSt (qEnv "REVISE:\n- Add a Sources section." "text") "" "q").researchInvocations + 1 ∧
    strContains
      (steps (qEnv "REVISE:\n- Add a Sources section." "text")
        (initSt (qEnv "REVISE:\n- Add a Sources section." "text") "" "q") 2).lastResearchMessage
      "- Add a Sources section." :=
  C3_revise_round _ _ "- Add a Sources section." rfl (by decide) (by decide) (by decide)

/-- C2 counterexample: the critic response `"Revised draft attached."`
begins with neither the literal `"ENOUGH"` nor the literal `"REVISE:"`
(stripped, case-insensitive), yet the controller does not treat it as
sufficient: `decision.upper().startswith("REVISE")` matches, so one loop
iteration increments `revision_rounds` and re-invokes the research agent. -/
theorem C2_counterexample :
    pyStartsWith (pyUpper (pyStrip "Revised draft attached.")) "ENOUGH" = false ∧
    pyStartsWith (pyUpper (pyStrip "Revised draft attached.")) "REVISE:" = false ∧
    (steps (qEnv "Revised draft attached." "text")
      (initSt (qEnv "Revised draft attached." "text") "" "q") 2).revision_rounds = 1 ∧
    (steps (qEnv "Revised draft attached." "text")
      (initSt (qEnv "Revised draft attached." "text") "" "q") 2).researchInvocations = 2 := by
  decide

/-- C2 amended: a critic response whose stripped form begins
case-insensitively with neither `"ENOUGH"` nor `"REVISE"` (the code matches
the prefix `"REVISE"` without the colon) is treated as sufficient: the loop
terminates, `revision_rounds` is not incremented, the research agent is not
re-invoked, and no error is raised. -/
theorem C2_unexpected_is_sufficient (env : Env) (s : St)
    (hp : s.phase = .loopHead)
    (hlt : s.revision_rounds < MAX_REVISIONS)
    (he : pyStartsWith
      (pyUpper (pyStrip (env.criticResponse (s.critique_rounds + 1)))) "ENOUGH" = false)
    (hr : pyStartsWith
      (pyUpper (pyStrip (env.criticResponse (s.critique_rounds + 1)))) "REVISE" = false) :
    (steps env s 2).phase = .done ∧
    (steps env s 2).revision_rounds = s.revision_rounds ∧
    (steps env s 2).researchInvocations = s.researchInvocations := by
  have h1 := step_loopHead_lt env s hp hlt
  have hp1 : (step env s).phase = .decided := by rw [h1]
  have hd : (step env s).decision
      = pyStrip (env.criticResponse (s.critique_rounds + 1)) := by rw [h1]
  have h2 := step_decided_unexpected env (step env s) hp1
    (by rw [hd]; exact he) (by rw [hd]; exact hr)
  have e2 : steps env s 2 = step env (step env s) := rfl
  rw [e2, h2]
  refine ⟨rfl, ?_, ?_⟩ <;> rw [h1]

theorem C2_unexpected_is_sufficient_witness :
    (steps (qEnv "I cannot evaluate this." "text")
        (initSt (qEnv "I cannot evaluate this." "text") "" "q") 2).phase = .done ∧
    (steps (qEnv "I cannot evaluate this." "text")
        (initSt (qEnv "I cannot evaluate this." "text") "" "q") 2).revision_rounds
      = (initSt (qEnv "I cannot evaluate this." "text") "" "q").revision_rounds ∧
    (steps (qEnv "I cannot evaluate this." "text")
        (initSt (qEnv "I cannot evaluate this." "text") "" "q") 2).researchInvocations
      = (initSt (qEnv "I cannot evaluate this." "text") "" "q").researchInvocations :=
  C2_unexpected_is_sufficient _ _ rfl (by decide) (by decide) (by decide)

theorem prefix_extend_right {a b : List Char} (c : List Char) (h : a <+: b) :
    a <+: b ++ c :=
  h.trans ( List.prefix_append b c)

/-- The critic log only grows across one micro-step. -/
theorem criticLog_step_prefix (env : Env) (s : St) :
    s.criticLog.data <+: (step env s).criticLog.data := by
  by_cases hp1 : s.phase = .loopHead
  · by_cases hlt : s.revision_rounds < MAX_REVISIONS
    · rw [step_loopHead_lt env s hp1 hlt]
      show s.criticLog.data <+: (append_critic_thoughts s.criticLog _ _ _).data
      unfold append_critic_thoughts
      simp only [String.data_append, List.append_assoc]
      exact List.prefix_append _ _
    · rw [step_loopHead_ge env s hp1 hlt]
  · by_cases hp2 : s.phase = .decided
    · by_cases he : pyStartsWith (pyUpper s.decision) "ENOUGH" = true
      · rw [step_decided_enough env s hp2 he]
      · by_cases hr : pyStartsWith (pyUpper s.decision) "REVISE" = true
        · rw [step_decided_revise env s hp2 (by simpa using he) hr]
        · rw [step_decided_unexpected env s hp2 (by simpa using he)
            (by simpa using hr)]
    · have hp3 : s.phase = .done := by
        cases h : s.phase <;> simp_all
      rw [step_done env s hp3]

/-- C6: the append-only resources only grow.  The critic-log content after
any number of loop micro-steps is a byte-for-byte prefix of its content one
micro-step later; `append_critic_thoughts` always extends its file content;
and each `internet_search` call extends the tool-call log content. -/
theorem C6_append_only :
    (∀ (env : Env) (log q : String) (n : Nat),
      (steps env (initSt env log q) n).criticLog.data
        <+: (steps env (initSt env log q) (n + 1)).criticLog.data) ∧
    (∀ (fileContent text : String) (round_num : Nat) (ts : String),
      fileContent.data <+: (append_critic_thoughts fileContent text round_num ts).data) ∧
    (∀ (toolLog query : String) (max_results : Nat) (topic : Topic)
        (include_raw_content : Bool) (ts took_repr : String) (n_results : Nat),
      toolLog.data <+: (internet_search toolLog query max_results topic
        include_raw_content ts took_repr n_results).data) := by
  refine ⟨?_, ?_, ?_⟩
  · intro env log q n
    exact criticLog_step_prefix env (steps env (initSt env log q) n)
  · intro fileContent text round_num ts
    unfold append_critic_thoughts
    simp only [String.data_append, List.append_assoc]
    exact List.prefix_append _ _
  · intro toolLog query max_results topic include_raw_content ts took_repr n_results
    unfold internet_search
    simp only [String.data_append, List.append_assoc]
    exact List.prefix_append _ _

/-- C7 counterexample: in the stub scenario the loop does exit after round
0, but what `write_output` persists is not byte-for-byte the returned text:
`f.write(text.strip() + "\n")` appends a trailing newline, so the file
content differs from the text. -/
theorem C7_counterexample :
    run7.phase = .done ∧ run7.revision_rounds = 0 ∧ run7.outputFile ≠ T7 := by
  decide

/-- C7 amended: in the stub scenario (research stub returns the
five-section `T7`, critic stub returns `"ENOUGH"`), the loop exits after
round 0 with `revision_rounds = 0`, and the persisted `output.txt` content
is exactly that text followed by the single trailing newline that
`write_output` appends. -/
theorem C7_scenario :
    run7.phase = .done ∧ run7.revision_rounds = 0 ∧ run7.outputFile = T7 ++ "\n" := by
  decide

theorem strContains_appendl {x y : String} (z : String)
    (h : strContains x y) : strContains (x ++ z) y := by
  unfold strContains at *
  rw [String.data_append]
  exact infix_extend_right _ h

theorem strContains_appendr {x y : String} (z : String)
    (h : strContains x y) : strContains (z ++ x) y := by
  unfold strContains at *
  rw [String.data_append]
  exact infix_extend_left _ h

theorem strContains_self (x : String) : strContains x x := List.infix_rfl

theorem jsonEscapeChar_plain (c : Char) (h1 : 32 ≤ c.toNat) (h2 : c.toNat ≤ 126)
    (h3 : c ≠ '"') (h4 : c ≠ '\\') : jsonEscapeChar c = ⟨[c]⟩ := by
  have hn : c ≠ '\n' := by intro h; subst h; exact absurd h1 (by decide)
  have ht : c ≠ '\t' := by intro h; subst h; exact absurd h1 (by decide)
  have hr : c ≠ '\r' := by intro h; subst h; exact absurd h1 (by decide)
  have hb : c ≠ Char.ofNat 8 := by intro h; subst h; exact absurd h1 (by decide)
  have hf : c ≠ Char.ofNat 12 := by intro h; subst h; exact absurd h1 (by decide)
  unfold jsonEscapeChar
  rw [if_neg h3, if_neg h4, if_neg hn, if_neg ht, if_neg hr, if_neg hb,
    if_neg hf, if_neg (by omega)]

theorem jsonEscapeList_plain (l : List Char)
    (h : ∀ c ∈ l, 32 ≤ c.toNat ∧ c.toNat ≤ 126 ∧ c ≠ '"' ∧ c ≠ '\\') :
    (l.map fun c => (jsonEscapeChar c).data).flatten = l := by
  induction l with
  | nil => rfl
  | cons c l ih =>
      obtain ⟨h1, h2, h3, h4⟩ := h c (List.mem_cons_self c l)
      simp only [List.map_cons, List.flatten_cons,
        jsonEscapeChar_plain c h1 h2 h3 h4]
      rw [ih (fun d hd => h d (List.mem_cons_of_mem _ hd))]
      rfl

theorem jsonEscape_plain (s : String) (h : JsonPlain s) : jsonEscape s = s := by
  cases s with
  | mk l =>
      show (⟨(l.map fun c => (jsonEscapeChar c).data).flatten⟩ : String) = ⟨l⟩
      rw [jsonEscapeList_plain l h]

/-- C8 counterexample: an `internet_search` call with `max_results = 7`,
`topic = finance`, `include_raw_content = true` appends a record that
mentions none of those call parameters — the dict written at main.py lines
52-63 has only the keys `tool`, `ts`, `query`, `took_sec`, `n_results`. -/
theorem C8_counterexample :
    internet_search "" "capital of France" 7 .finance true
        "2026-01-01T00:00:00" "0.123" 3
      = tool_log_record "2026-01-01T00:00:00" "capital of France" "0.123" 3
          ++ "\n" ∧
    ¬ strContains
        (tool_log_record "2026-01-01T00:00:00" "capital of France" "0.123" 3)
        "finance" ∧
    ¬ strContains
        (tool_log_record "2026-01-01T00:00:00" "capital of France" "0.123" 3)
        "max_results" ∧
    ¬ strContains
        (tool_log_record "2026-01-01T00:00:00" "capital of France" "0.123" 3)
        "7" := by
  set_option maxRecDepth 4096 in decide

/-- C8 amended: every `internet_search` invocation appends exactly one
newline-terminated JSON record to the tool-call log, and that record
contains the tool name, the timestamp, the query, the latency rendering and
the result count — but not the other call parameters
(`max_results`, `topic`, `include_raw_content`). -/
theorem C8_tool_log_append (toolLog query : String) (max_results : Nat)
    (topic : Topic) (include_raw_content : Bool) (ts took_repr : String)
    (n_results : Nat) (hq : JsonPlain query) (hts : JsonPlain ts) :
    internet_search toolLog query max_results topic include_raw_content
        ts took_repr n_results
      = toolLog ++ tool_log_record ts query took_repr n_results ++ "\n" ∧
    strContains (tool_log_record ts query took_repr n_results) "internet_search" ∧
    strContains (tool_log_record ts query took_repr n_results) ts ∧
    strContains (tool_log_record ts query took_repr n_results) query ∧
    strContains (tool_log_record ts query took_repr n_results) took_repr ∧
    strContains (tool_log_record ts query took_repr n_results)
      (toString n_results) := by
  refine ⟨rfl, ?_, ?_, ?_, ?_, ?_⟩ <;> unfold tool_log_record
  · exact strContains_appendl _ (strContains_appendl _ (strContains_appendl _
      (strContains_appendl _ (strContains_appendl _ (strContains_appendl _
        (strContains_appendl _ (strContains_appendl _ (by decide))))))))
  · have hts' : strContains (jsonString ts) ts := by
      unfold jsonString
      rw [jsonEscape_plain ts hts]
      exact strContains_appendl _ (strContains_appendr _ (strContains_self ts))
    exact strContains_appendl _ (strContains_appendl _ (strContains_appendl _
      (strContains_appendl _ (strContains_appendl _ (strContains_appendl _
        (strContains_appendl _ (strContains_appendr _ hts')))))))
  · have hq' : strContains (jsonString query) query := by
      unfold jsonString
      rw [jsonEscape_plain query hq]
      exact strContains_appendl _ (strContains_appendr _ (strContains_self query))
    exact strContains_appendl _ (strContains_appendl _ (strContains_appendl _
      (strContains_appendl _ (strContains_appendl _
        (strContains_appendr _ hq')))))
  · exact strContains_appendl _ (strContains_appendl _ (strContains_appendl _
      (strContains_appendr _ (strContains_self took_repr))))
  · exact strContains_appendl _
      (strContains_appendr _ (strContains_self (toString n_results)))

theorem C8_tool_log_append_witness :
    (internet_search "" "capital of France" 5 .general false
        "2026-01-01T00:00:00" "0.123" 3
      = "" ++ tool_log_record "2026-01-01T00:00:00" "capital of France" "0.123" 3
          ++ "\n" ∧
    strContains (tool_log_record "2026-01-01T00:00:00" "capital of France" "0.123" 3)
      "internet_search" ∧
    strContains (tool_log_record "2026-01-01T00:00:00" "capital of France" "0.123" 3)
      "2026-01-01T00:00:00" ∧
    strContains (tool_log_record "2026-01-01T00:00:00" "capital of France" "0.123" 3)
      "capital of France" ∧
    strContains (tool_log_record "2026-01-01T00:00:00" "capital of France" "0.123" 3)
      "0.123" ∧
    strContains (tool_log_record "2026-01-01T00:00:00" "capital of France" "0.123" 3)
      (toString 3)) :=
  C8_tool_log_append "" "capital of France" 5 .general false
    "2026-01-01T00:00:00" "0.123" 3 (by decide) (by decide)

/-- C9: input whose stripped form is empty is skipped: the artifacts are
untouched, no collaborator is invoked, and the REPL continues with the next
question.  (The notice printed to the user is an I/O effect outside the
state model.) -/
theorem C9_empty_input_skipped (env : Env) (a : Artifacts) (raw : String)
    (h : pyStrip raw = "") :
    replStep env a raw = (a, true, 0) := by
  unfold replStep
  rw [h]
  rw [if_neg (show ¬ (pyLower "" = "\\exit") by decide), if_pos rfl]

theorem C9_empty_input_skipped_witness :
    replStep (qEnv "ENOUGH" "text") ⟨"out", "log"⟩ "  \t " = (⟨"out", "log"⟩, true, 0) :=
  C9_empty_input_skipped (qEnv "ENOUGH" "text") ⟨"out", "log"⟩ "  \t " (by decide)

end DeepResearch
